import Mathlib

/-!
Verification of the name-resolution engine of the wiremix repository
(`src/config/names.rs`).  The resolution algorithm (`Names::resolve`,
`name_override`, the `TagResolver` / `NameResolver` implementations for
`state::Device`, `state::Node` and `state::Client`) is embedded directly
from the source.  The supporting data model (tags, templates, object
records, the object-graph state) lives in modules of the repository that
are not part of the provided sources; those are modelled from the spec,
each marked in its doc comment.
-/

namespace Wiremix

/-- Modelled from the spec: `DeviceTag` variants of the `Tag` union
(`crate::config::tag::DeviceTag`, not in the provided sources):
Device has properties Name, Nick, Description. -/
inductive DeviceTag where
  | deviceName
  | deviceNick
  | deviceDescription
deriving DecidableEq

/-- Modelled from the spec: `NodeTag` variants of the `Tag` union
(`crate::config::tag::NodeTag`, not in the provided sources):
Node has properties Name, Nick, Description, MediaName. -/
inductive NodeTag where
  | nodeName
  | nodeNick
  | nodeDescription
  | mediaName
deriving DecidableEq

/-- Modelled from the spec: `ClientTag` variants of the `Tag` union
(`crate::config::tag::ClientTag`, not in the provided sources):
Client has properties ApplicationName, ApplicationProcessBinary. -/
inductive ClientTag where
  | applicationName
  | applicationProcessBinary
deriving DecidableEq

/-- Modelled from the spec: `Tag` (`crate::config::tag::Tag`, not in the
provided sources) — a tagged union with three variants, one per object
kind. -/
inductive Tag where
  | device (t : DeviceTag)
  | node (t : NodeTag)
  | client (t : ClientTag)
deriving DecidableEq

/-- Modelled from the spec: one segment of a parsed `NameTemplate` —
either a literal string or a tag reference. -/
inductive Segment where
  | literal (s : String)
  | tag (t : Tag)
deriving DecidableEq

/-- Modelled from the spec: `NameTemplate`
(`crate::config::name_template::NameTemplate`, not in the provided
sources) — an ordered sequence of segments. -/
structure NameTemplate where
  segments : List Segment
deriving DecidableEq

/-- Modelled from the spec: `MediaClass` (`crate::media_class::MediaClass`,
not in the provided sources) — consulted only through its `is_sink` /
`is_source` classification. -/
structure MediaClass where
  is_sink : Bool
  is_source : Bool
deriving DecidableEq

/-- Modelled from the spec: the `state::Device` record — optional name,
nick, description. -/
structure Device where
  name : Option String
  nick : Option String
  description : Option String
deriving DecidableEq

/-- Modelled from the spec: the `state::Node` record — optional name,
nick, description, media_name, optional device_id / client_id
back-references, optional media_class. -/
structure Node where
  name : Option String
  nick : Option String
  description : Option String
  media_name : Option String
  device_id : Option Nat
  client_id : Option Nat
  media_class : Option MediaClass
deriving DecidableEq

/-- Modelled from the spec: the `state::Client` record — optional
application_name and application_process_binary. -/
structure Client where
  application_name : Option String
  application_process_binary : Option String
deriving DecidableEq

/-- Modelled from the spec: the object-graph store `state::State`,
consulted only via lookup-by-identifier; the device and client maps are
modelled as association lists keyed by object id. -/
structure State where
  devices : List (Nat × Device)
  clients : List (Nat × Client)
deriving DecidableEq

/-- Lookup of a device by id in the state's device map
(`state.devices.get(&id)`). -/
def State.findDevice (s : State) (id : Nat) : Option Device :=
  (s.devices.find? fun p => p.1 == id).map Prod.snd

/-- Lookup of a client by id in the state's client map
(`state.clients.get(&id)`). -/
def State.findClient (s : State) (id : Nat) : Option Client :=
  (s.clients.find? fun p => p.1 == id).map Prod.snd

/-- The enum `config::OverrideType` — the three object categories an override can
apply to (from the spec's data model; the enum itself is not in the
provided sources). -/
inductive OverrideType where
  | device
  | endpoint
  | stream
deriving DecidableEq

/-- Modelled from the spec: `config::NameOverride` — applicable category
set, a matcher Tag, an exact-match value, and the replacement template
list. -/
structure NameOverride where
  types : List OverrideType
  property : Tag
  value : String
  templates : List NameTemplate
deriving DecidableEq

/-- The aggregate `config::Names` — the three default template lists plus the ordered
override list (aggregate shape from the spec; the logic below is from
`src/config/names.rs`). -/
structure Names where
  stream : List NameTemplate
  endpoint : List NameTemplate
  device : List NameTemplate
  overrides : List NameOverride
deriving DecidableEq

/-- Modelled from the spec: `NameTemplate::render` over a list of
segments (the implementation is not in the provided sources).  Iterates
segments in order; literal segments append verbatim; tag segments
resolve through the resolution function and append on success; the first
tag that resolves to absence aborts the whole render with `none`. -/
def renderSegs (f : Tag → Option String) : List Segment → Option String
  | [] => some ""
  | Segment.literal s :: rest => (renderSegs f rest).map (fun r => s ++ r)
  | Segment.tag t :: rest =>
    match f t with
    | none => none
    | some v => (renderSegs f rest).map (fun r => v ++ r)

/-- Modelled from the spec: `NameTemplate::render(resolve_fn)` — the
all-or-nothing rendering contract of section 4.1. -/
def NameTemplate.render (t : NameTemplate) (f : Tag → Option String) :
    Option String :=
  renderSegs f t.segments

/-- The tag reference of a segment, if it is one. -/
def Segment.tagOf : Segment → Option Tag
  | Segment.tag tg => some tg
  | Segment.literal _ => none

/-- The tag references of a template, in order. -/
def NameTemplate.tags (t : NameTemplate) : List Tag :=
  t.segments.filterMap Segment.tagOf

/-- In-order concatenation of literal segments and resolved tag values
(meaningful when every referenced tag resolves). -/
def segsOutput (f : Tag → Option String) : List Segment → String
  | [] => ""
  | Segment.literal s :: rest => s ++ segsOutput f rest
  | Segment.tag t :: rest => (f t).getD "" ++ segsOutput f rest

/-- An override matches an object (represented by its tag-resolution
function `rt`) under category `ot` when the category set contains `ot`
and the matcher tag resolves exactly to the override's value.  This is
the condition tested inside `NameResolver::name_override`. -/
def NameOverride.matches (o : NameOverride) (rt : Tag → Option String)
    (ot : OverrideType) : Prop :=
  ot ∈ o.types ∧ rt o.property = some o.value

instance (o : NameOverride) (rt : Tag → Option String) (ot : OverrideType) :
    Decidable (o.matches rt ot) := by
  unfold NameOverride.matches; infer_instance

/-- From `src/config/names.rs`, `NameResolver::name_override`: scan the
override list in order, return the template list of the first override
whose category set contains `ot` and whose matcher tag resolves to
exactly its value. -/
def name_override (rt : Tag → Option String)
    (overrides : List NameOverride) (ot : OverrideType) :
    Option (List NameTemplate) :=
  overrides.findSome? fun o =>
    if o.matches rt ot then some o.templates else none

/-- From `src/config/names.rs`, `impl TagResolver for state::Device`:
resolves Device tags from its own fields; Node and Client tags are
always absent. -/
def Device.resolve_tag (d : Device) (_state : State) :
    Tag → Option String
  | Tag.device DeviceTag.deviceName => d.name
  | Tag.device DeviceTag.deviceNick => d.nick
  | Tag.device DeviceTag.deviceDescription => d.description
  | Tag.node _ => none
  | Tag.client _ => none

/-- From `src/config/names.rs`, `impl TagResolver for state::Client`:
resolves Client tags from its own fields; Device and Node tags are
always absent. -/
def Client.resolve_tag (c : Client) (_state : State) :
    Tag → Option String
  | Tag.client ClientTag.applicationName => c.application_name
  | Tag.client ClientTag.applicationProcessBinary =>
      c.application_process_binary
  | Tag.node _ => none
  | Tag.device _ => none

/-- From `src/config/names.rs`, `impl TagResolver for state::Node`:
resolves Node tags from its own fields; forwards Device tags through the
optional `device_id` link and the state's device map, and Client tags
through `client_id` and the client map; a missing link or a lookup miss
yields absence. -/
def Node.resolve_tag (n : Node) (state : State) (tag : Tag) :
    Option String :=
  match tag with
  | Tag.node NodeTag.nodeName => n.name
  | Tag.node NodeTag.nodeNick => n.nick
  | Tag.node NodeTag.nodeDescription => n.description
  | Tag.node NodeTag.mediaName => n.media_name
  | Tag.device _ => do
    let id ← n.device_id
    let d ← state.findDevice id
    d.resolve_tag state tag
  | Tag.client _ => do
    let id ← n.client_id
    let c ← state.findClient id
    c.resolve_tag state tag

/-- The `NameResolver::fallback` implementation for `state::Device`: the device's own name
field. -/
def Device.fallback (d : Device) : Option String := d.name

/-- The `NameResolver::fallback` implementation for `state::Node`: the node's own name
field. -/
def Node.fallback (n : Node) : Option String := n.name

/-- The guard of the endpoint branch in
`impl NameResolver for state::Node { fn templates }`: the node's
media_class is present and is a sink or a source. -/
def Node.isEndpointClass (n : Node) : Bool :=
  match n.media_class with
  | some mc => mc.is_sink || mc.is_source
  | none => false

/-- The `NameResolver::templates` implementation for `state::Device` from
`src/config/names.rs`: the first matching Device override's list, else
`names.device`. -/
def Device.templates (d : Device) (state : State) (names : Names) :
    List NameTemplate :=
  (name_override (d.resolve_tag state) names.overrides
    OverrideType.device).getD names.device

/-- The `NameResolver::templates` implementation for `state::Node` from
`src/config/names.rs`: endpoint overrides / `names.endpoint` when the
media_class is a sink or source, otherwise stream overrides /
`names.stream`. -/
def Node.templates (n : Node) (state : State) (names : Names) :
    List NameTemplate :=
  match n.media_class with
  | some mc =>
    if mc.is_sink || mc.is_source then
      (name_override (n.resolve_tag state) names.overrides
        OverrideType.endpoint).getD names.endpoint
    else
      (name_override (n.resolve_tag state) names.overrides
        OverrideType.stream).getD names.stream
  | none =>
    (name_override (n.resolve_tag state) names.overrides
      OverrideType.stream).getD names.stream

/-- The two object kinds that implement `NameResolver` and can be passed
to `Names::resolve` (Client implements only `TagResolver`). -/
inductive Resolvable where
  | device (d : Device)
  | node (n : Node)
deriving DecidableEq

/-- Trait dispatch of `TagResolver::resolve_tag` over a resolvable
object. -/
def Resolvable.resolve_tag : Resolvable → State → Tag → Option String
  | Resolvable.device d, s, t => d.resolve_tag s t
  | Resolvable.node n, s, t => n.resolve_tag s t

/-- Trait dispatch of `NameResolver::fallback` over a resolvable
object. -/
def Resolvable.fallback : Resolvable → Option String
  | Resolvable.device d => d.fallback
  | Resolvable.node n => n.fallback

/-- Trait dispatch of `NameResolver::templates` over a resolvable
object. -/
def Resolvable.templates : Resolvable → State → Names → List NameTemplate
  | Resolvable.device d, s, names => d.templates s names
  | Resolvable.node n, s, names => n.templates s names

/-- The object's own `name` field (used to state the fallback
contract). -/
def Resolvable.nameField : Resolvable → Option String
  | Resolvable.device d => d.name
  | Resolvable.node n => n.name

/-- The category an object resolves under: Device for devices; Endpoint
for sink/source nodes; Stream otherwise. -/
def Resolvable.category : Resolvable → OverrideType
  | Resolvable.device _ => OverrideType.device
  | Resolvable.node n =>
    if n.isEndpointClass then OverrideType.endpoint else OverrideType.stream

/-- The default template list of a category in a `Names`
configuration. -/
def Names.defaultFor (names : Names) : OverrideType → List NameTemplate
  | OverrideType.device => names.device
  | OverrideType.endpoint => names.endpoint
  | OverrideType.stream => names.stream

/-- From `src/config/names.rs`, `Names::resolve`: the first successful
render among the object's applicable templates, else the object's
fallback. -/
def Names.resolve (names : Names) (state : State) (r : Resolvable) :
    Option String :=
  ((r.templates state names).findSome? fun t =>
    t.render (r.resolve_tag state)).or r.fallback

/-- The opening brace character of the placeholder syntax. -/
def lbrace : Char := Char.ofNat 123

/-- The closing brace character of the placeholder syntax. -/
def rbrace : Char := Char.ofNat 125

/-- Modelled from the spec: the fixed, exhaustive table mapping a
placeholder's kind and dot-qualified property name to a `Tag`
(section 4.1 / section 6 of the spec; the table itself is not in the
provided sources).  Unknown kind or property is a parse error. -/
def tagOfNames (kind : String) (prop : String) : Option Tag :=
  match kind, prop with
  | "device", "device.name" => some (Tag.device DeviceTag.deviceName)
  | "device", "device.nick" => some (Tag.device DeviceTag.deviceNick)
  | "device", "device.description" =>
      some (Tag.device DeviceTag.deviceDescription)
  | "node", "node.name" => some (Tag.node NodeTag.nodeName)
  | "node", "node.nick" => some (Tag.node NodeTag.nodeNick)
  | "node", "node.description" => some (Tag.node NodeTag.nodeDescription)
  | "node", "media.name" => some (Tag.node NodeTag.mediaName)
  | "client", "application.name" =>
      some (Tag.client ClientTag.applicationName)
  | "client", "application.process.binary" =>
      some (Tag.client ClientTag.applicationProcessBinary)
  | _, _ => none

/-- Interpret the text between braces as a `kind:property` placeholder
and look it up in the tag table. -/
def tagOfContent (cs : List Char) : Option Tag :=
  let kind := cs.takeWhile (fun c => c ≠ ':')
  match cs.dropWhile (fun c => c ≠ ':') with
  | [] => none
  | _ :: prop => tagOfNames (String.mk kind) (String.mk prop)

/-- Modelled from the spec: the segment scanner of the template parser
(section 4.1; the parser is not in the provided sources).  Literal text
runs up to the next opening brace; a brace introduces a placeholder that
must be closed and must name a known tag.  The fuel argument bounds the
recursion; each step consumes at least one character. -/
def parseSegsF : Nat → List Char → Option (List Segment)
  | 0, _ => none
  | _, [] => some []
  | Nat.succ fuel, c :: rest =>
    if c = lbrace then
      let content := rest.takeWhile (fun x => x ≠ rbrace)
      match rest.dropWhile (fun x => x ≠ rbrace) with
      | [] => none
      | _ :: rest2 =>
        match tagOfContent content with
        | none => none
        | some t => (parseSegsF fuel rest2).map (Segment.tag t :: ·)
    else
      let lit := (c :: rest).takeWhile (fun x => x ≠ lbrace)
      let rest2 := (c :: rest).dropWhile (fun x => x ≠ lbrace)
      (parseSegsF fuel rest2).map (Segment.literal (String.mk lit) :: ·)

/-- Modelled from the spec: `NameTemplate` parsing (`FromStr`, not in the
provided sources) — produce a `NameTemplate` or fail on malformed or
unrecognized placeholders. -/
def NameTemplate.parse (s : String) : Option NameTemplate :=
  (parseSegsF (s.length + 1) s.toList).map NameTemplate.mk

/-- The function `Names::default_stream` from `src/config/names.rs`, with `unwrap`
made explicit as an `Option`: one parsed template. -/
def defaultStreamOpt : Option (List NameTemplate) := do
  let t ← NameTemplate.parse "{node:node.name}: {node:media.name}"
  pure [t]

/-- The function `Names::default_endpoint` from `src/config/names.rs`, with `unwrap`
made explicit as an `Option`: two parsed templates. -/
def defaultEndpointOpt : Option (List NameTemplate) := do
  let a ← NameTemplate.parse "{device:device.nick}"
  let b ← NameTemplate.parse "{node:node.description}"
  pure [a, b]

/-- The function `Names::default_device` from `src/config/names.rs`, with `unwrap`
made explicit as an `Option`: two parsed templates. -/
def defaultDeviceOpt : Option (List NameTemplate) := do
  let a ← NameTemplate.parse "{device:device.nick}"
  let b ← NameTemplate.parse "{device:device.description}"
  pure [a, b]

/-- From `src/config/names.rs`, `impl Default for Names`, with the
`unwrap` calls made explicit: the three default lists plus empty
overrides. -/
def namesDefaultOpt : Option Names := do
  let stream ← defaultStreamOpt
  let endpoint ← defaultEndpointOpt
  let device ← defaultDeviceOpt
  pure { stream := stream, endpoint := endpoint, device := device,
         overrides := [] }

/-! Concrete fixtures mirroring the unit-test fixture of
`src/config/names.rs`: a device with name and nick, a node with name and
nick, a client with an application name, linked through ids 0 and 2. -/

/-- Fixture device: name and nick set, description absent. -/
def fixtureDevice : Device :=
  { name := some "Device name", nick := some "Device nick",
    description := none }

/-- Fixture client: application name set. -/
def fixtureClient : Client :=
  { application_name := some "Client name",
    application_process_binary := none }

/-- Fixture node: name and nick set, no links, no media class. -/
def fixtureNode : Node :=
  { name := some "Node name", nick := some "Node nick",
    description := none, media_name := none, device_id := none,
    client_id := none, media_class := none }

/-- Fixture node linked to the fixture device and client. -/
def fixtureNodeLinked : Node :=
  { fixtureNode with device_id := some 0, client_id := some 2 }

/-- Fixture state holding the fixture device (id 0) and client (id 2). -/
def fixtureState : State :=
  { devices := [(0, fixtureDevice)], clients := [(2, fixtureClient)] }

/-- One-tag template `\x7bnode:node.nick\x7d`. -/
def tNodeNick : NameTemplate :=
  ⟨[Segment.tag (Tag.node NodeTag.nodeNick)]⟩

/-- One-tag template `\x7bnode:node.description\x7d`. -/
def tNodeDescription : NameTemplate :=
  ⟨[Segment.tag (Tag.node NodeTag.nodeDescription)]⟩

/-- One-tag template `\x7bdevice:device.nick\x7d`. -/
def tDeviceNick : NameTemplate :=
  ⟨[Segment.tag (Tag.device DeviceTag.deviceNick)]⟩

end Wiremix

namespace Wiremix

/-! Helper lemmas shared by the claim theorems. -/

/-- A `findSome?` scan returns the image of the first element on which
the function succeeds. -/
theorem findSome?_first_success {α β : Type} (f : α → Option β)
    (l₁ : List α) (x : α) (l₂ : List α) (v : β)
    (hfail : ∀ y ∈ l₁, f y = none) (hx : f x = some v) :
    (l₁ ++ x :: l₂).findSome? f = some v := by
  rw [List.findSome?_append, List.findSome?_eq_none_iff.mpr hfail,
    Option.none_or, List.findSome?_cons, hx]

/-- If no override in the list matches, `name_override` returns
`none`. -/
theorem name_override_none (rt : Tag → Option String)
    (ovs : List NameOverride) (ot : OverrideType)
    (h : ∀ o ∈ ovs, ¬ o.matches rt ot) :
    name_override rt ovs ot = none := by
  unfold name_override
  rw [List.findSome?_eq_none_iff]
  intro o ho
  simp [h o ho]

/-- The scan `name_override` returns the template list of the first matching
override. -/
theorem name_override_first (rt : Tag → Option String) (ot : OverrideType)
    (l₁ : List NameOverride) (o : NameOverride) (l₂ : List NameOverride)
    (hfail : ∀ o' ∈ l₁, ¬ o'.matches rt ot) (hm : o.matches rt ot) :
    name_override rt (l₁ ++ o :: l₂) ot = some o.templates := by
  unfold name_override
  apply findSome?_first_success
  · intro y hy; simp [hfail y hy]
  · simp [hm]

/-- The selection `templates` for either resolvable kind is the first matching override
of the object's category, defaulting to the category's list. -/
theorem templates_eq (names : Names) (state : State) (r : Resolvable) :
    r.templates state names =
      (name_override (r.resolve_tag state) names.overrides
        r.category).getD (names.defaultFor r.category) := by
  cases r with
  | device d => rfl
  | node n =>
    obtain ⟨nm, nk, ds, mn, di, ci, mc⟩ := n
    simp only [Resolvable.templates, Resolvable.category,
      Resolvable.resolve_tag, Node.templates, Node.isEndpointClass]
    cases mc with
    | none => simp only [Names.defaultFor]; rfl
    | some m =>
      by_cases h : (m.is_sink || m.is_source) = true
      · simp only [h, if_true, Names.defaultFor]; rfl
      · simp only [h, if_false, Bool.false_eq_true, Names.defaultFor]; rfl

/-- The fallback of either resolvable kind is its own name field. -/
theorem fallback_eq_nameField (r : Resolvable) :
    r.fallback = r.nameField := by
  cases r <;> rfl

/-- A render over a segment list is `none` exactly when some referenced
tag resolves to `none`. -/
theorem renderSegs_none_iff (f : Tag → Option String)
    (segs : List Segment) :
    renderSegs f segs = none ↔
      ∃ tg ∈ segs.filterMap Segment.tagOf, f tg = none := by
  induction segs with
  | nil => simp [renderSegs]
  | cons s rest ih =>
    cases s with
    | literal str =>
      simp [renderSegs, List.filterMap_cons, Segment.tagOf, ih]
    | tag tg =>
      cases h : f tg with
      | none =>
        simp only [renderSegs, h, List.filterMap_cons, Segment.tagOf]
        exact iff_of_true trivial ⟨tg, List.mem_cons_self _ _, h⟩
      | some w =>
        simp only [renderSegs, h, List.filterMap_cons, Segment.tagOf]
        rw [Option.map_eq_none', ih]
        constructor
        · rintro ⟨tg2, htg2, hf2⟩
          exact ⟨tg2, List.mem_cons_of_mem _ htg2, hf2⟩
        · rintro ⟨tg2, htg2, hf2⟩
          rcases List.mem_cons.mp htg2 with heq | hmem
          · subst heq; rw [hf2] at h; exact Option.noConfusion h
          · exact ⟨tg2, hmem, hf2⟩

/-- A successful render over a segment list is the in-order
concatenation of literals and resolved values. -/
theorem renderSegs_some_eq (f : Tag → Option String)
    (segs : List Segment) (v : String)
    (h : renderSegs f segs = some v) : v = segsOutput f segs := by
  induction segs generalizing v with
  | nil =>
    simp only [renderSegs, Option.some.injEq] at h
    simp [segsOutput, ← h]
  | cons s rest ih =>
    cases s with
    | literal str =>
      simp only [renderSegs, Option.map_eq_some'] at h
      obtain ⟨r, hr, hv⟩ := h
      rw [← hv, segsOutput, ih r hr]
    | tag tg =>
      cases hf : f tg with
      | none => rw [renderSegs, hf] at h; exact Option.noConfusion h
      | some w =>
        rw [renderSegs, hf, Option.map_eq_some'] at h
        obtain ⟨r, hr, hv⟩ := h
        rw [← hv, segsOutput, hf, ih r hr]
        rfl

/-- C1: `resolve` returns the render of the first template in the
selected, override-aware template list that renders successfully, never
evaluating later templates once one succeeds; if no template in that
list renders (including when the list is empty), `resolve` returns the
object's fallback value, which is the object's own name field (so `none`
when that field is absent).  The template list is chosen by the override
scan before any rendering happens. -/
theorem resolve_first_success_else_fallback (names : Names)
    (state : State) (r : Resolvable) :
    (∀ (l₁ : List NameTemplate) (t : NameTemplate)
        (l₂ : List NameTemplate) (v : String),
        r.templates state names = l₁ ++ t :: l₂ →
        (∀ t2 ∈ l₁, t2.render (r.resolve_tag state) = none) →
        t.render (r.resolve_tag state) = some v →
        names.resolve state r = some v)
      ∧ ((∀ t ∈ r.templates state names,
            t.render (r.resolve_tag state) = none) →
          names.resolve state r = r.nameField)
      ∧ r.fallback = r.nameField := by
  refine ⟨?_, ?_, fallback_eq_nameField r⟩
  · intro l₁ t l₂ v hsplit hfail hsucc
    unfold Names.resolve
    rw [hsplit, findSome?_first_success _ l₁ t l₂ v hfail hsucc]
    rfl
  · intro hall
    unfold Names.resolve
    rw [List.findSome?_eq_none_iff.mpr hall, Option.none_or,
      fallback_eq_nameField]

/-- Names configuration used by the C1 witness: two stream templates,
the first of which fails on the fixture node. -/
def c1Names : Names :=
  { stream := [tNodeDescription, tNodeNick], endpoint := [], device := [],
    overrides := [] }

/-- Names configuration used by the C1 witness: a single stream
template that fails on the fixture node. -/
def c1NamesFail : Names :=
  { stream := [tNodeDescription], endpoint := [], device := [],
    overrides := [] }

/-- Witness for C1 at the fixture node: the second stream template is
the first to render, and when every template fails the result is the
node's own name. -/
theorem resolve_first_success_else_fallback_witness :
    c1Names.resolve fixtureState (Resolvable.node fixtureNode) =
        some "Node nick"
      ∧ c1NamesFail.resolve fixtureState (Resolvable.node fixtureNode) =
        some "Node name" :=
  ⟨(resolve_first_success_else_fallback c1Names fixtureState
      (Resolvable.node fixtureNode)).1 [tNodeDescription] tNodeNick []
      "Node nick" (by decide) (by decide) (by decide),
    ((resolve_first_success_else_fallback c1NamesFail fixtureState
      (Resolvable.node fixtureNode)).2.1 (by decide)).trans (by decide)⟩

/-- C2: a template renders successfully iff every referenced tag
resolves, in which case the result is the in-order concatenation of the
literal segments and the resolved values; any absent tag makes the whole
render absent. -/
theorem render_all_or_nothing (t : NameTemplate)
    (f : Tag → Option String) :
    ((t.render f).isSome = true ↔ ∀ tg ∈ t.tags, (f tg).isSome = true)
      ∧ (∀ v, t.render f = some v → v = segsOutput f t.segments) := by
  constructor
  · constructor
    · intro hs tg htg
      by_contra hnone
      rw [Bool.not_eq_true, Option.not_isSome, Option.isNone_iff_eq_none]
        at hnone
      have hn : t.render f = none :=
        (renderSegs_none_iff f t.segments).mpr ⟨tg, htg, hnone⟩
      rw [hn] at hs
      exact Bool.noConfusion hs
    · intro hall
      rw [Option.isSome_iff_ne_none]
      intro hnone
      obtain ⟨tg, htg, hfn⟩ := (renderSegs_none_iff f t.segments).mp hnone
      have := hall tg htg
      rw [hfn] at this
      exact Bool.noConfusion this
  · intro v hv
    exact renderSegs_some_eq f t.segments v hv

/-- Witness for C2: the one-tag nick template renders on the fixture
node to exactly the concatenation of its segments' values. -/
theorem render_all_or_nothing_witness :
    "Node nick" =
      segsOutput (fixtureNode.resolve_tag fixtureState)
        tNodeNick.segments :=
  (render_all_or_nothing tNodeNick
    (fixtureNode.resolve_tag fixtureState)).2 "Node nick" (by decide)

/-- C3: `name_override` returns the template list of the first override
(in list order) whose category set contains the object's category and
whose matcher tag resolves, through the object's own `resolve_tag`, to
exactly the override's value; when no override satisfies both
conditions, `templates` falls back to the category's default list from
the Names configuration. -/
theorem name_override_first_match_else_default
    (rt : Tag → Option String) (ovs : List NameOverride)
    (ot : OverrideType) (names : Names) (state : State)
    (r : Resolvable) :
    (∀ (l₁ : List NameOverride) (o : NameOverride)
        (l₂ : List NameOverride),
        ovs = l₁ ++ o :: l₂ →
        (∀ o2 ∈ l₁, ¬ o2.matches rt ot) →
        o.matches rt ot →
        name_override rt ovs ot = some o.templates)
      ∧ ((∀ o ∈ ovs, ¬ o.matches rt ot) →
          name_override rt ovs ot = none)
      ∧ ((∀ o ∈ names.overrides,
            ¬ o.matches (r.resolve_tag state) r.category) →
          r.templates state names = names.defaultFor r.category) := by
  refine ⟨?_, name_override_none rt ovs ot, ?_⟩
  · intro l₁ o l₂ hsplit hfail hm
    rw [hsplit]
    exact name_override_first rt ot l₁ o l₂ hfail hm
  · intro hnone
    rw [templates_eq, name_override_none _ _ _ hnone]
    rfl

/-- Override used by the C3 and C7 witnesses' configurations: matches a
node whose name is "Node name" under the Stream (or Device) category. -/
def fixtureOverride : NameOverride :=
  { types := [OverrideType.device, OverrideType.stream],
    property := Tag.node NodeTag.nodeName,
    value := "Node name",
    templates := [tNodeDescription, tNodeNick] }

/-- Names configuration used by the C3 witness: one matching override
in front of distinct default lists. -/
def c3Names : Names :=
  { stream := [tNodeNick], endpoint := [], device := [],
    overrides := [fixtureOverride] }

/-- Witness for C3 at the fixture node: the override matches and its
template list is selected; with no overrides at all the stream default
is selected. -/
theorem name_override_first_match_else_default_witness :
    name_override (fixtureNode.resolve_tag fixtureState)
        c3Names.overrides OverrideType.stream =
        some [tNodeDescription, tNodeNick]
      ∧ (Resolvable.node fixtureNode).templates fixtureState c1Names =
        c1Names.defaultFor OverrideType.stream :=
  ⟨(name_override_first_match_else_default
      (fixtureNode.resolve_tag fixtureState) c3Names.overrides
      OverrideType.stream c3Names fixtureState
      (Resolvable.node fixtureNode)).1 [] fixtureOverride [] (by decide)
      (by decide) (by decide),
    (name_override_first_match_else_default
      (fixtureNode.resolve_tag fixtureState) c1Names.overrides
      OverrideType.stream c1Names fixtureState
      (Resolvable.node fixtureNode)).2.2 (by decide)⟩

/-- The function `resolve_tag` does not depend on the node's media_class. -/
theorem resolve_tag_media_class (n : Node) (state : State)
    (mc : Option MediaClass) :
    Node.resolve_tag { n with media_class := mc } state =
      n.resolve_tag state := by
  funext tag
  cases tag with
  | node nt => cases nt <;> rfl
  | device dt => rfl
  | client ct => rfl

/-- C4: a node selects the Endpoint template list (override-aware,
defaulting to `names.endpoint`) iff its media_class is present and is a
sink or source, and the Stream list otherwise; a device always selects
the Device list; the selection follows the node's current media_class,
so changing only that field reclassifies the node without touching the
rest of its resolution behavior. -/
theorem templates_category_selection (names : Names) (state : State)
    (n : Node) (d : Device) :
    (n.templates state names =
        (if n.isEndpointClass then
          (name_override (n.resolve_tag state) names.overrides
            OverrideType.endpoint).getD names.endpoint
        else
          (name_override (n.resolve_tag state) names.overrides
            OverrideType.stream).getD names.stream))
      ∧ (n.isEndpointClass = true ↔
          ∃ mc, n.media_class = some mc ∧
            (mc.is_sink = true ∨ mc.is_source = true))
      ∧ (d.templates state names =
          (name_override (d.resolve_tag state) names.overrides
            OverrideType.device).getD names.device)
      ∧ (∀ mc : MediaClass,
          Node.templates { n with media_class := some mc } state names =
            (if mc.is_sink || mc.is_source then
              (name_override (n.resolve_tag state) names.overrides
                OverrideType.endpoint).getD names.endpoint
            else
              (name_override (n.resolve_tag state) names.overrides
                OverrideType.stream).getD names.stream)) := by
  refine ⟨?_, ?_, rfl, ?_⟩
  · unfold Node.templates Node.isEndpointClass
    obtain ⟨nm, nk, ds, mn, di, ci, mc⟩ := n
    cases mc with
    | none => rfl
    | some m =>
      by_cases h : (m.is_sink || m.is_source) = true
      · simp only [h, if_true]
      · simp only [h, if_false, Bool.false_eq_true]
  · obtain ⟨nm, nk, ds, mn, di, ci, mc⟩ := n
    unfold Node.isEndpointClass
    cases mc with
    | none => simp
    | some m => simp [Bool.or_eq_true]
  · intro mc
    rw [Node.templates, resolve_tag_media_class]

/-- Witness for C4: giving the fixture node a sink media_class routes
it to the endpoint list of a configuration with distinct lists. -/
theorem templates_category_selection_witness :
    Node.templates
        { fixtureNode with
          media_class := some { is_sink := true, is_source := false } }
        fixtureState c3Names = [] := by
  rw [(templates_category_selection c3Names fixtureState fixtureNode
    fixtureDevice).2.2.2 { is_sink := true, is_source := false }]
  decide

/-- C5: Device and Client resolvers are leaves: a device resolves every
Node or Client tag to absent, and a client resolves every Device or
Node tag to absent; neither ever forwards to another object. -/
theorem leaf_resolvers (d : Device) (c : Client) (state : State) :
    (∀ nt : NodeTag, d.resolve_tag state (Tag.node nt) = none)
      ∧ (∀ ct : ClientTag, d.resolve_tag state (Tag.client ct) = none)
      ∧ (∀ dt : DeviceTag, c.resolve_tag state (Tag.device dt) = none)
      ∧ (∀ nt : NodeTag, c.resolve_tag state (Tag.node nt) = none) :=
  ⟨fun _ => rfl, fun _ => rfl, fun _ => rfl, fun _ => rfl⟩

/-- The value of `Node.resolve_tag` on a Device tag, written as the bind chain
through the optional link and the state lookup. -/
theorem node_resolve_device_tag (n : Node) (state : State)
    (dt : DeviceTag) :
    n.resolve_tag state (Tag.device dt) =
      n.device_id.bind fun id =>
        (state.findDevice id).bind fun d =>
          d.resolve_tag state (Tag.device dt) := by
  obtain ⟨nm, nk, ds, mn, di, ci, mc⟩ := n
  cases di <;> rfl

/-- The value of `Node.resolve_tag` on a Client tag, written as the bind chain
through the optional link and the state lookup. -/
theorem node_resolve_client_tag (n : Node) (state : State)
    (ct : ClientTag) :
    n.resolve_tag state (Tag.client ct) =
      n.client_id.bind fun id =>
        (state.findClient id).bind fun c =>
          c.resolve_tag state (Tag.client ct) := by
  obtain ⟨nm, nk, ds, mn, di, ci, mc⟩ := n
  cases ci <;> rfl

/-- C6: a node answers Node tags from its own fields; for a Device tag,
an absent device_id or a missed lookup yields absent, and otherwise the
result equals the linked device's resolution of the same tag; Client
tags behave symmetrically through client_id and the client map. -/
theorem node_resolution_forwarding (n : Node) (state : State) :
    (n.resolve_tag state (Tag.node NodeTag.nodeName) = n.name)
      ∧ (n.resolve_tag state (Tag.node NodeTag.nodeNick) = n.nick)
      ∧ (n.resolve_tag state (Tag.node NodeTag.nodeDescription) =
          n.description)
      ∧ (n.resolve_tag state (Tag.node NodeTag.mediaName) =
          n.media_name)
      ∧ (∀ dt : DeviceTag,
          (n.device_id = none →
            n.resolve_tag state (Tag.device dt) = none)
          ∧ (∀ id, n.device_id = some id → state.findDevice id = none →
              n.resolve_tag state (Tag.device dt) = none)
          ∧ (∀ id d, n.device_id = some id →
              state.findDevice id = some d →
              n.resolve_tag state (Tag.device dt) =
                d.resolve_tag state (Tag.device dt)))
      ∧ (∀ ct : ClientTag,
          (n.client_id = none →
            n.resolve_tag state (Tag.client ct) = none)
          ∧ (∀ id, n.client_id = some id → state.findClient id = none →
              n.resolve_tag state (Tag.client ct) = none)
          ∧ (∀ id c, n.client_id = some id →
              state.findClient id = some c →
              n.resolve_tag state (Tag.client ct) =
                c.resolve_tag state (Tag.client ct))) := by
  refine ⟨rfl, rfl, rfl, rfl, ?_, ?_⟩
  · intro dt
    refine ⟨?_, ?_, ?_⟩
    · intro h; rw [node_resolve_device_tag, h]; rfl
    · intro id h hmiss
      rw [node_resolve_device_tag, h, Option.some_bind, hmiss]
      rfl
    · intro id d h hhit
      rw [node_resolve_device_tag, h, Option.some_bind, hhit,
        Option.some_bind]
  · intro ct
    refine ⟨?_, ?_, ?_⟩
    · intro h; rw [node_resolve_client_tag, h]; rfl
    · intro id h hmiss
      rw [node_resolve_client_tag, h, Option.some_bind, hmiss]
      rfl
    · intro id c h hhit
      rw [node_resolve_client_tag, h, Option.some_bind, hhit,
        Option.some_bind]

/-- Witness for C6 at the linked fixture node: a Device tag forwards to
the fixture device, and the unlinked node resolves it to absent. -/
theorem node_resolution_forwarding_witness :
    fixtureNodeLinked.resolve_tag fixtureState
        (Tag.device DeviceTag.deviceNick) =
        fixtureDevice.resolve_tag fixtureState
          (Tag.device DeviceTag.deviceNick)
      ∧ fixtureNode.resolve_tag fixtureState
        (Tag.device DeviceTag.deviceNick) = none :=
  ⟨((node_resolution_forwarding fixtureNodeLinked fixtureState).2.2.2.2.1
      DeviceTag.deviceNick).2.2 0 fixtureDevice (by decide) (by decide),
    ((node_resolution_forwarding fixtureNode fixtureState).2.2.2.2.1
      DeviceTag.deviceNick).1 (by decide)⟩

/-- C7: when the first matching override carries an empty template
list, `resolve` goes straight to the object's own name field — the
category defaults are never attempted once an override has matched. -/
theorem empty_override_immediate_fallback (names : Names)
    (state : State) (r : Resolvable)
    (h : name_override (r.resolve_tag state) names.overrides
      r.category = some []) :
    names.resolve state r = r.nameField := by
  unfold Names.resolve
  rw [templates_eq, h, Option.getD_some, List.findSome?_nil,
    Option.none_or, fallback_eq_nameField]

/-- Names configuration used by the C7 witness: a matching override
with an empty template list in front of non-empty defaults. -/
def c7Names : Names :=
  { stream := [tNodeNick], endpoint := [tNodeNick],
    device := [tNodeNick],
    overrides := [{ fixtureOverride with templates := [] }] }

/-- Witness for C7 at the fixture node: the empty override matches and
resolve returns the node's own name, ignoring the stream default that
would have rendered "Node nick". -/
theorem empty_override_immediate_fallback_witness :
    c7Names.resolve fixtureState (Resolvable.node fixtureNode) =
      some "Node name" :=
  (empty_override_immediate_fallback c7Names fixtureState
    (Resolvable.node fixtureNode) (by decide)).trans (by decide)

/-- C8: the default construction of `Names` never panics: every
built-in default template string parses, and the result is exactly the
three non-empty default template lists with an empty overrides list. -/
theorem names_default_parses :
    namesDefaultOpt =
      some { stream := [⟨[Segment.tag (Tag.node NodeTag.nodeName),
                          Segment.literal ": ",
                          Segment.tag (Tag.node NodeTag.mediaName)]⟩],
             endpoint := [⟨[Segment.tag (Tag.device DeviceTag.deviceNick)]⟩,
                          ⟨[Segment.tag (Tag.node NodeTag.nodeDescription)]⟩],
             device := [⟨[Segment.tag (Tag.device DeviceTag.deviceNick)]⟩,
                        ⟨[Segment.tag (Tag.device DeviceTag.deviceDescription)]⟩],
             overrides := [] } := by
  decide

/-- C9: override matching goes through the node's own `resolve_tag`,
so a Device-tag matcher compares against the linked device's property
(and a Client-tag matcher against the linked client's); with no link or
a missed lookup such a matcher never matches. -/
theorem override_matching_forwards (n : Node) (state : State)
    (o : NameOverride) (ot : OverrideType) (hty : ot ∈ o.types) :
    (∀ dt : DeviceTag, o.property = Tag.device dt →
        ((∀ id d, n.device_id = some id → state.findDevice id = some d →
            (o.matches (n.resolve_tag state) ot ↔
              d.resolve_tag state (Tag.device dt) = some o.value))
          ∧ (n.device_id = none →
              ¬ o.matches (n.resolve_tag state) ot)
          ∧ (∀ id, n.device_id = some id → state.findDevice id = none →
              ¬ o.matches (n.resolve_tag state) ot)))
      ∧ (∀ ct : ClientTag, o.property = Tag.client ct →
          ((∀ id c, n.client_id = some id → state.findClient id = some c →
              (o.matches (n.resolve_tag state) ot ↔
                c.resolve_tag state (Tag.client ct) = some o.value))
            ∧ (n.client_id = none →
                ¬ o.matches (n.resolve_tag state) ot)
            ∧ (∀ id, n.client_id = some id →
                state.findClient id = none →
                ¬ o.matches (n.resolve_tag state) ot))) := by
  have hm : ∀ rt : Tag → Option String,
      o.matches rt ot ↔ rt o.property = some o.value :=
    fun rt => ⟨fun h => h.2, fun h => ⟨hty, h⟩⟩
  constructor
  · intro dt hprop
    refine ⟨?_, ?_, ?_⟩
    · intro id d hid hfind
      rw [hm, hprop, node_resolve_device_tag, hid, Option.some_bind,
        hfind, Option.some_bind]
    · intro hid
      rw [hm, hprop, node_resolve_device_tag, hid]
      simp
    · intro id hid hmiss
      rw [hm, hprop, node_resolve_device_tag, hid, Option.some_bind,
        hmiss]
      simp
  · intro ct hprop
    refine ⟨?_, ?_, ?_⟩
    · intro id c hid hfind
      rw [hm, hprop, node_resolve_client_tag, hid, Option.some_bind,
        hfind, Option.some_bind]
    · intro hid
      rw [hm, hprop, node_resolve_client_tag, hid]
      simp
    · intro id hid hmiss
      rw [hm, hprop, node_resolve_client_tag, hid, Option.some_bind,
        hmiss]
      simp

/-- Override whose matcher is a Device tag, used by the C9 witness. -/
def deviceTagOverride : NameOverride :=
  { types := [OverrideType.stream],
    property := Tag.device DeviceTag.deviceNick,
    value := "Device nick",
    templates := [tNodeNick] }

/-- Witness for C9: through the linked fixture node the Device-nick
matcher matches exactly because the linked device's nick equals the
override value, while the unlinked node never matches it. -/
theorem override_matching_forwards_witness :
    deviceTagOverride.matches
        (fixtureNodeLinked.resolve_tag fixtureState) OverrideType.stream
      ∧ ¬ deviceTagOverride.matches
        (fixtureNode.resolve_tag fixtureState) OverrideType.stream :=
  ⟨(((override_matching_forwards fixtureNodeLinked fixtureState
      deviceTagOverride OverrideType.stream (by decide)).1
      DeviceTag.deviceNick rfl).1 0 fixtureDevice (by decide)
      (by decide)).mpr (by decide),
    ((override_matching_forwards fixtureNode fixtureState
      deviceTagOverride OverrideType.stream (by decide)).1
      DeviceTag.deviceNick rfl).2.1 (by decide)⟩

/-- C10: `resolve` is absent exactly when the object's own name field
is absent and every template in the selected list fails to render; in
particular an object with a present name field always resolves to some
value. -/
theorem resolve_none_characterization (names : Names) (state : State)
    (r : Resolvable) :
    (names.resolve state r = none ↔
        r.nameField = none ∧
          ∀ t ∈ r.templates state names,
            t.render (r.resolve_tag state) = none)
      ∧ (∀ v, r.nameField = some v →
          (names.resolve state r).isSome = true) := by
  constructor
  · unfold Names.resolve
    rw [Option.or_eq_none, List.findSome?_eq_none_iff,
      fallback_eq_nameField]
    exact and_comm
  · intro v hv
    unfold Names.resolve
    rw [Option.isSome_or, fallback_eq_nameField, hv]
    simp

/-- Witness for C10: the fixture node has a present name field, so it
resolves to some value even under a configuration whose templates all
fail. -/
theorem resolve_none_characterization_witness :
    (c1NamesFail.resolve fixtureState
      (Resolvable.node fixtureNode)).isSome = true :=
  (resolve_none_characterization c1NamesFail fixtureState
    (Resolvable.node fixtureNode)).2 "Node name" (by decide)

end Wiremix
